import Mathlib

/-!
Shallow embedding of `homework.py`, a fitness-tracker calculator: a base
class `Training` with three variants (`Running`, `SportsWalking`,
`Swimming`), an `InfoMessage` record with a fixed-template renderer, and a
dispatcher `read_package` mapping short codes to constructors.

Python floats are modelled as rationals.  A raised Python exception is an
`Except` error; the base class's `get_spent_calories` returning `None` is
modelled as `Option.none` inside a successful result.
-/

namespace Homework

/-- The kinds of runtime errors the Python program can raise. -/
inductive PyError where
  | keyError
  | typeError
  | zeroDivisionError
deriving DecidableEq, Repr

/-- The class hierarchy as a tagged variant: the base class `Training`
(constructor `training`) and the three subclasses, each with the fields its
`__init__` stores. -/
inductive Training where
  | training (action duration weight : ℚ)
  | running (action duration weight : ℚ)
  | sportsWalking (action duration weight height : ℚ)
  | swimming (action duration weight length_pool count_pool : ℚ)
deriving DecidableEq, Repr

/-- `self.action`, stored by the shared `__init__`. -/
def Training.action : Training → ℚ
  | .training a _ _ => a
  | .running a _ _ => a
  | .sportsWalking a _ _ _ => a
  | .swimming a _ _ _ _ => a

/-- `self.duration`, stored by the shared `__init__` (hours). -/
def Training.duration : Training → ℚ
  | .training _ d _ => d
  | .running _ d _ => d
  | .sportsWalking _ d _ _ => d
  | .swimming _ d _ _ _ => d

/-- `self.weight`, stored by the shared `__init__` (kg). -/
def Training.weight : Training → ℚ
  | .training _ _ w => w
  | .running _ _ w => w
  | .sportsWalking _ _ w _ => w
  | .swimming _ _ w _ _ => w

/-- `LEN_STEP` class attribute: `0.65` on the base class, overridden to
`1.38` by `Swimming` only. -/
def Training.LEN_STEP : Training → ℚ
  | .swimming _ _ _ _ _ => 1.38
  | _ => 0.65

/-- `M_IN_KM = 1000`. -/
def M_IN_KM : ℚ := 1000

/-- `H_IN_MIN = 60`. -/
def H_IN_MIN : ℚ := 60

/-- `CALORIE_RATE_COEFF_RUN_1 = 18`. -/
def CALORIE_RATE_COEFF_RUN_1 : ℚ := 18

/-- `CALORIE_RATE_COEFF_RUN_2 = 20`. -/
def CALORIE_RATE_COEFF_RUN_2 : ℚ := 20

/-- `CALORIE_RATE_COEFF_WALK_1 = 0.035`. -/
def CALORIE_RATE_COEFF_WALK_1 : ℚ := 0.035

/-- `CALORIE_RATE_COEFF_WALK_2 = 0.029`. -/
def CALORIE_RATE_COEFF_WALK_2 : ℚ := 0.029

/-- `CALORIE_RATE_COEFF_SWIM_1 = 1.1`. -/
def CALORIE_RATE_COEFF_SWIM_1 : ℚ := 1.1

/-- `CALORIE_RATE_COEFF_SWIM_2 = 2`. -/
def CALORIE_RATE_COEFF_SWIM_2 : ℚ := 2

/-- `Training.get_distance`: `self.action * self.LEN_STEP / self.M_IN_KM`.
Defined once on the base class; no subclass overrides it. -/
def Training.get_distance (t : Training) : ℚ :=
  t.action * t.LEN_STEP / M_IN_KM

/-- `get_mean_speed`: the base class computes
`self.get_distance() / self.duration`; `Swimming` overrides it with
`self.length_pool * self.count_pool / self.M_IN_KM / self.duration`.
Division by a zero duration raises `ZeroDivisionError`. -/
def Training.get_mean_speed : Training → Except PyError ℚ
  | .training a d w =>
      if d = 0 then .error .zeroDivisionError
      else .ok ((Training.training a d w).get_distance / d)
  | .running a d w =>
      if d = 0 then .error .zeroDivisionError
      else .ok ((Training.running a d w).get_distance / d)
  | .sportsWalking a d w h =>
      if d = 0 then .error .zeroDivisionError
      else .ok ((Training.sportsWalking a d w h).get_distance / d)
  | .swimming _ d _ l n =>
      if d = 0 then .error .zeroDivisionError
      else .ok (l * n / M_IN_KM / d)

/-- `get_spent_calories`: the base class body is `pass`, i.e. it returns
`None` (modelled as `Option.none`).  Each variant computes its own formula;
`SportsWalking` floor-divides the squared speed by the height (Python `//`
on floats), which raises `ZeroDivisionError` when the height is zero. -/
def Training.get_spent_calories : Training → Except PyError (Option ℚ)
  | .training _ _ _ => .ok none
  | .running a d w =>
      match (Training.running a d w).get_mean_speed with
      | .error e => .error e
      | .ok s =>
          .ok (some ((CALORIE_RATE_COEFF_RUN_1 * s - CALORIE_RATE_COEFF_RUN_2)
            * w / M_IN_KM * d * H_IN_MIN))
  | .sportsWalking a d w h =>
      match (Training.sportsWalking a d w h).get_mean_speed with
      | .error e => .error e
      | .ok s =>
          if h = 0 then .error .zeroDivisionError
          else
            .ok (some ((CALORIE_RATE_COEFF_WALK_1 * w
              + (Int.floor (s ^ 2 / h) : ℚ) * CALORIE_RATE_COEFF_WALK_2 * w)
              * d * H_IN_MIN))
  | .swimming a d w l n =>
      match (Training.swimming a d w l n).get_mean_speed with
      | .error e => .error e
      | .ok s =>
          .ok (some ((s + CALORIE_RATE_COEFF_SWIM_1)
            * CALORIE_RATE_COEFF_SWIM_2 * w))

/-- `type(self).__name__`, used as the training type label. -/
def Training.type_name : Training → String
  | .training _ _ _ => "Training"
  | .running _ _ _ => "Running"
  | .sportsWalking _ _ _ _ => "SportsWalking"
  | .swimming _ _ _ _ _ => "Swimming"

/-- The `InfoMessage` dataclass.  Its `calories` field can hold the `None`
that the base class's `get_spent_calories` returns, hence `Option ℚ`. -/
structure InfoMessage where
  training_type : String
  duration : ℚ
  distance : ℚ
  speed : ℚ
  calories : Option ℚ
deriving DecidableEq, Repr

/-- `Training.show_training_info`: builds an `InfoMessage` from the type
name, the duration and the three computed metrics; any error raised by the
metric computations propagates. -/
def Training.show_training_info (t : Training) : Except PyError InfoMessage :=
  match t.get_mean_speed with
  | .error e => .error e
  | .ok s =>
      match t.get_spent_calories with
      | .error e => .error e
      | .ok c => .ok ⟨t.type_name, t.duration, t.get_distance, s, c⟩

/-- The character for a single decimal digit `d < 10`. -/
def digitChar (d : ℕ) : Char := Char.ofNat (48 + d)

/-- Decimal digits of a natural number, most significant first (no leading
zeros except for `0` itself), as Python prints the integral part. -/
def natDigits (n : ℕ) : List Char :=
  if _h : n < 10 then [digitChar n]
  else natDigits (n / 10) ++ [digitChar (n % 10)]
termination_by n
decreasing_by exact Nat.div_lt_self (by omega) (by omega)

/-- The three fractional digits of `m % 1000`, zero-padded. -/
def fracDigits3 (m : ℕ) : List Char :=
  [digitChar (m / 100 % 10), digitChar (m / 10 % 10), digitChar (m % 10)]

/-- Python's `format(x, ".3f")` on the rational model: round `x * 1000` to
the nearest integer and print sign, integral part, a point, and exactly
three fractional digits. -/
def formatFixed3 (q : ℚ) : String :=
  let n : ℤ := ⌊q * 1000 + 1 / 2⌋
  (if n < 0 then "-" else "") ++ String.mk (natDigits (n.natAbs / 1000))
    ++ "." ++ String.mk (fracDigits3 (n.natAbs % 1000))

/-- `InfoMessage.get_message`: the fixed f-string template.  Formatting
`None` with `:.3f` raises a `TypeError` in Python; otherwise the four
numeric fields are rendered with three decimal places. -/
def InfoMessage.get_message (m : InfoMessage) : Except PyError String :=
  match m.calories with
  | none => .error .typeError
  | some c =>
      .ok ("Тип тренировки: " ++ m.training_type
        ++ "; Длительность: " ++ formatFixed3 m.duration
        ++ " ч.; Дистанция: " ++ formatFixed3 m.distance
        ++ " км; Ср. скорость: " ++ formatFixed3 m.speed
        ++ " км/ч; Потрачено ккал: " ++ formatFixed3 c ++ ".")

/-- `read_package`: dictionary dispatch on the workout code.  An unknown
code raises the explicit `KeyError`; a known code calls the variant's
constructor with the data unpacked positionally, so a field count that does
not match the constructor raises a `TypeError`. -/
def read_package (workout_type : String) (data : List ℚ) :
    Except PyError Training :=
  if workout_type = "SWM" then
    match data with
    | [a, d, w, l, n] => .ok (.swimming a d w l n)
    | _ => .error .typeError
  else if workout_type = "RUN" then
    match data with
    | [a, d, w] => .ok (.running a d w)
    | _ => .error .typeError
  else if workout_type = "WLK" then
    match data with
    | [a, d, w, h] => .ok (.sportsWalking a d w h)
    | _ => .error .typeError
  else .error .keyError

end Homework

namespace Homework

/-- Helper: the character of a decimal digit below ten is a digit character. -/
theorem digitChar_isDigit (d : ℕ) (h : d < 10) : (digitChar d).isDigit = true := by
  interval_cases d <;> decide

/-- Helper: every character printed for the integral part is a digit. -/
theorem natDigits_isDigit (n : ℕ) : ∀ c ∈ natDigits n, c.isDigit = true := by
  induction n using Nat.strong_induction_on with
  | _ n ih =>
    rw [natDigits]
    split
    · next h =>
      intro c hc
      simp only [List.mem_singleton] at hc
      subst hc
      exact digitChar_isDigit n h
    · next h =>
      intro c hc
      rw [List.mem_append] at hc
      rcases hc with hc | hc
      · exact ih (n / 10) (Nat.div_lt_self (by omega) (by omega)) c hc
      · simp only [List.mem_singleton] at hc
        subst hc
        exact digitChar_isDigit _ (Nat.mod_lt _ (by omega))

/-- Helper: every character of the three-digit fractional part is a digit. -/
theorem fracDigits3_isDigit (m : ℕ) : ∀ c ∈ fracDigits3 m, c.isDigit = true := by
  intro c hc
  simp only [fracDigits3, List.mem_cons, List.not_mem_nil, or_false] at hc
  rcases hc with rfl | rfl | rfl <;> exact digitChar_isDigit _ (Nat.mod_lt _ (by omega))

/-- Claim C1: for every `Running` workout with action count `a`, duration `d`
(hours, nonzero) and weight `w`, `get_spent_calories` returns
`(18 * mean_speed - 20) * w / 1000 * (d * 60)` with
`mean_speed = (a * 0.65 / 1000) / d`; at `action = 15000`, `duration = 1`,
`weight = 75` the result is `699.75`. -/
theorem claim_C1_running_calories (a d w : ℚ) (hd : d ≠ 0) :
    (Training.running a d w).get_spent_calories
      = .ok (some ((18 * ((a * 0.65 / 1000) / d) - 20) * w / 1000 * (d * 60)))
    ∧ (Training.running 15000 1 75).get_spent_calories = .ok (some 699.75) := by
  constructor
  · simp only [Training.get_spent_calories, Training.get_mean_speed, Training.get_distance,
      Training.action, Training.LEN_STEP, M_IN_KM, H_IN_MIN,
      CALORIE_RATE_COEFF_RUN_1, CALORIE_RATE_COEFF_RUN_2, if_neg hd]
    norm_num
    ring
  · simp only [Training.get_spent_calories, Training.get_mean_speed, Training.get_distance,
      Training.action, Training.LEN_STEP, M_IN_KM, H_IN_MIN,
      CALORIE_RATE_COEFF_RUN_1, CALORIE_RATE_COEFF_RUN_2,
      if_neg (by norm_num : (1 : ℚ) ≠ 0)]
    norm_num

/-- Witness for claim C1 at action 15000, duration 1 h, weight 75 kg. -/
theorem claim_C1_witness :
    (1 : ℚ) ≠ 0
    ∧ ((Training.running 15000 1 75).get_spent_calories
        = .ok (some ((18 * ((15000 * 0.65 / 1000) / 1) - 20) * 75 / 1000 * (1 * 60)))
      ∧ (Training.running 15000 1 75).get_spent_calories = .ok (some 699.75)) :=
  ⟨by simp, claim_C1_running_calories 15000 1 75 (by simp)⟩

/-- Claim C2: for every `SportsWalking` workout with weight `w`, height
`h ≠ 0`, duration `d ≠ 0` and mean speed `s` from the base distance formula,
`get_spent_calories` returns
`(0.035 * w + floor (s ^ 2 / h) * 0.029 * w) * (d * 60)`, where the squared
speed is floor-divided by the height. -/
theorem claim_C2_walking_calories (a d w h : ℚ) (hd : d ≠ 0) (hh : h ≠ 0) :
    (Training.sportsWalking a d w h).get_spent_calories
      = .ok (some ((0.035 * w
          + (⌊((a * 0.65 / 1000) / d) ^ 2 / h⌋ : ℚ) * 0.029 * w) * (d * 60))) := by
  simp only [Training.get_spent_calories, Training.get_mean_speed, Training.get_distance,
    Training.action, Training.LEN_STEP, M_IN_KM, H_IN_MIN,
    CALORIE_RATE_COEFF_WALK_1, CALORIE_RATE_COEFF_WALK_2, if_neg hd, if_neg hh]
  norm_num
  ring

/-- Witness for claim C2 at action 9000, duration 1 h, weight 75 kg,
height 180. -/
theorem claim_C2_witness :
    (1 : ℚ) ≠ 0 ∧ (180 : ℚ) ≠ 0
    ∧ (Training.sportsWalking 9000 1 75 180).get_spent_calories
      = .ok (some ((0.035 * 75
          + (⌊(((9000 : ℚ) * 0.65 / 1000) / 1) ^ 2 / 180⌋ : ℚ) * 0.029 * 75) * (1 * 60))) :=
  ⟨by simp, by simp, claim_C2_walking_calories 9000 1 75 180 (by simp) (by simp)⟩

/-- Claim C3: for every `Swimming` workout with pool length `l`, lap count
`n` and duration `d ≠ 0`, `get_mean_speed` returns `l * n / 1000 / d`, is
independent of the action count (and the weight), and at the sample input
differs from the base-class formula `distance / duration`. -/
theorem claim_C3_swimming_speed (a d w l n : ℚ) (hd : d ≠ 0) :
    (Training.swimming a d w l n).get_mean_speed = .ok (l * n / 1000 / d)
    ∧ (∀ a2 w2 : ℚ,
        (Training.swimming a2 d w2 l n).get_mean_speed
          = (Training.swimming a d w l n).get_mean_speed)
    ∧ (Training.swimming 720 1 80 25 40).get_mean_speed
        ≠ .ok ((Training.swimming 720 1 80 25 40).get_distance
            / (Training.swimming 720 1 80 25 40).duration) := by
  refine ⟨?_, ?_, ?_⟩
  · simp only [Training.get_mean_speed, M_IN_KM, if_neg hd]
  · intro a2 w2
    simp only [Training.get_mean_speed, M_IN_KM]
  · simp only [Training.get_mean_speed, Training.get_distance, Training.action,
      Training.duration, Training.LEN_STEP, M_IN_KM, if_neg (by norm_num : (1 : ℚ) ≠ 0)]
    norm_num

/-- Witness for claim C3 at the sample swimming package
`(720, 1, 80, 25, 40)`. -/
theorem claim_C3_witness :
    (1 : ℚ) ≠ 0
    ∧ ((Training.swimming 720 1 80 25 40).get_mean_speed = .ok (25 * 40 / 1000 / 1)
      ∧ (∀ a2 w2 : ℚ,
          (Training.swimming a2 1 w2 25 40).get_mean_speed
            = (Training.swimming 720 1 80 25 40).get_mean_speed)
      ∧ (Training.swimming 720 1 80 25 40).get_mean_speed
          ≠ .ok ((Training.swimming 720 1 80 25 40).get_distance
              / (Training.swimming 720 1 80 25 40).duration)) :=
  ⟨by simp, claim_C3_swimming_speed 720 1 80 25 40 (by simp)⟩

/-- Claim C4: for every `Swimming` workout with weight `w` whose
`get_mean_speed` is `s`, `get_spent_calories` returns `(s + 1.1) * 2 * w`,
and any other duration yielding the same mean speed yields the same
calories. -/
theorem claim_C4_swimming_calories (a d w l n s : ℚ)
    (hs : (Training.swimming a d w l n).get_mean_speed = .ok s) :
    (Training.swimming a d w l n).get_spent_calories = .ok (some ((s + 1.1) * 2 * w))
    ∧ ∀ d2 : ℚ, d2 ≠ 0 → (Training.swimming a d2 w l n).get_mean_speed = .ok s →
        (Training.swimming a d2 w l n).get_spent_calories
          = (Training.swimming a d w l n).get_spent_calories := by
  constructor
  · simp only [Training.get_spent_calories, hs,
      CALORIE_RATE_COEFF_SWIM_1, CALORIE_RATE_COEFF_SWIM_2]
  · intro d2 hd2 hs2
    simp only [Training.get_spent_calories, hs, hs2]

/-- Witness for claim C4 at the sample swimming package
`(720, 1, 80, 25, 40)`, whose mean speed is `25 * 40 / 1000 / 1`. -/
theorem claim_C4_witness :
    (Training.swimming 720 1 80 25 40).get_mean_speed = .ok (25 * 40 / 1000 / 1)
    ∧ ((Training.swimming 720 1 80 25 40).get_spent_calories
        = .ok (some ((25 * 40 / 1000 / 1 + 1.1) * 2 * 80))
      ∧ ∀ d2 : ℚ, d2 ≠ 0 →
          (Training.swimming 720 d2 80 25 40).get_mean_speed = .ok (25 * 40 / 1000 / 1) →
          (Training.swimming 720 d2 80 25 40).get_spent_calories
            = (Training.swimming 720 1 80 25 40).get_spent_calories) :=
  ⟨by simp only [Training.get_mean_speed, M_IN_KM, if_neg one_ne_zero],
   claim_C4_swimming_calories 720 1 80 25 40 (25 * 40 / 1000 / 1)
     (by simp only [Training.get_mean_speed, M_IN_KM, if_neg one_ne_zero])⟩

/-- Claim C5: every workout's `get_distance` is
`action * LEN_STEP / 1000`, where `LEN_STEP` is `0.65` for the base class,
`Running` and `SportsWalking`, and `1.38` for `Swimming`; no variant has its
own distance formula. -/
theorem claim_C5_distance (t : Training) :
    t.get_distance = t.action * t.LEN_STEP / 1000
    ∧ (∀ a d w, (Training.training a d w).LEN_STEP = 0.65
        ∧ (Training.running a d w).LEN_STEP = 0.65)
    ∧ (∀ a d w h, (Training.sportsWalking a d w h).LEN_STEP = 0.65)
    ∧ (∀ a d w l n, (Training.swimming a d w l n).LEN_STEP = 1.38) := by
  refine ⟨?_, ?_, ?_, ?_⟩
  · cases t <;> simp [Training.get_distance, M_IN_KM]
  · intro a d w
    constructor <;> simp [Training.LEN_STEP]
  · intro a d w h
    simp [Training.LEN_STEP]
  · intro a d w l n
    simp [Training.LEN_STEP]

/-- Claim C6: `read_package` with code `SWM` builds a `Swimming`, with `RUN`
a `Running`, and with `WLK` a `SportsWalking`, assigning the data elements
positionally to the constructor parameters. -/
theorem claim_C6_dispatch (a d w h l n : ℚ) :
    read_package "SWM" [a, d, w, l, n] = .ok (.swimming a d w l n)
    ∧ read_package "RUN" [a, d, w] = .ok (.running a d w)
    ∧ read_package "WLK" [a, d, w, h] = .ok (.sportsWalking a d w h) := by
  refine ⟨?_, ?_, ?_⟩ <;> simp [read_package]

/-- Claim C7: for every code other than `SWM`, `RUN` and `WLK`,
`read_package` raises `KeyError` and constructs nothing, and `KeyError` is
raised only for such unrecognized codes. -/
theorem claim_C7_unknown_code (code : String) (data : List ℚ)
    (h1 : code ≠ "SWM") (h2 : code ≠ "RUN") (h3 : code ≠ "WLK") :
    read_package code data = .error .keyError
    ∧ ∀ (c : String) (ds : List ℚ), read_package c ds = .error PyError.keyError →
        c ≠ "SWM" ∧ c ≠ "RUN" ∧ c ≠ "WLK" := by
  constructor
  · simp [read_package, h1, h2, h3]
  · intro c ds hc
    by_contra hcon
    push_neg at hcon
    rcases eq_or_ne c "SWM" with rfl | hcs
    · simp only [read_package, if_pos rfl] at hc
      rcases ds with _ | ⟨x1, _ | ⟨x2, _ | ⟨x3, _ | ⟨x4, _ | ⟨x5, _ | ds⟩⟩⟩⟩⟩ <;> simp at hc
    rcases eq_or_ne c "RUN" with rfl | hcr
    · simp only [read_package, if_neg (show ¬("RUN" : String) = "SWM" by decide),
        if_pos rfl] at hc
      rcases ds with _ | ⟨x1, _ | ⟨x2, _ | ⟨x3, _ | ds⟩⟩⟩ <;> simp at hc
    rcases eq_or_ne c "WLK" with rfl | hcw
    · simp only [read_package, if_neg (show ¬("WLK" : String) = "SWM" by decide),
        if_neg (show ¬("WLK" : String) = "RUN" by decide), if_pos rfl] at hc
      rcases ds with _ | ⟨x1, _ | ⟨x2, _ | ⟨x3, _ | ⟨x4, _ | ds⟩⟩⟩⟩ <;> simp at hc
    exact absurd (hcon hcs hcr) hcw

/-- Witness for claim C7 at the unrecognized code `XYZ` with empty data. -/
theorem claim_C7_witness :
    ("XYZ" : String) ≠ "SWM" ∧ ("XYZ" : String) ≠ "RUN" ∧ ("XYZ" : String) ≠ "WLK"
    ∧ (read_package "XYZ" [] = .error .keyError
      ∧ ∀ (c : String) (ds : List ℚ), read_package c ds = .error PyError.keyError →
          c ≠ "SWM" ∧ c ≠ "RUN" ∧ c ≠ "WLK") :=
  ⟨by decide, by decide, by decide,
   claim_C7_unknown_code "XYZ" [] (by decide) (by decide) (by decide)⟩

end Homework

namespace Homework

/-- Claim C8: for every `InfoMessage` whose calories field holds a number,
`get_message` returns the one fixed template line, and every numeric field
is rendered by `formatFixed3`, which always produces an integral part
followed by a point and exactly three decimal digits. -/
theorem claim_C8_message_format (m : InfoMessage) (c : ℚ) (hc : m.calories = some c) :
    m.get_message = .ok ("Тип тренировки: " ++ m.training_type
      ++ "; Длительность: " ++ formatFixed3 m.duration
      ++ " ч.; Дистанция: " ++ formatFixed3 m.distance
      ++ " км; Ср. скорость: " ++ formatFixed3 m.speed
      ++ " км/ч; Потрачено ккал: " ++ formatFixed3 c ++ ".")
    ∧ ∀ q : ℚ, ∃ ip fp : String, formatFixed3 q = ip ++ "." ++ fp
        ∧ fp.length = 3 ∧ (∀ ch ∈ fp.data, ch.isDigit = true)
        ∧ (∀ ch ∈ ip.data, ch.isDigit = true ∨ ch = '-') := by
  constructor
  · simp only [InfoMessage.get_message, hc]
  · intro q
    refine ⟨(if (⌊q * 1000 + 1 / 2⌋ : ℤ) < 0 then "-" else "")
        ++ String.mk (natDigits ((⌊q * 1000 + 1 / 2⌋ : ℤ).natAbs / 1000)),
      String.mk (fracDigits3 ((⌊q * 1000 + 1 / 2⌋ : ℤ).natAbs % 1000)), rfl, rfl, ?_, ?_⟩
    · intro ch hch
      exact fracDigits3_isDigit _ ch hch
    · intro ch hch
      rw [String.data_append] at hch
      rw [List.mem_append] at hch
      rcases hch with hch | hch
      · right
        split at hch
        · simp only [String.data] at hch
          simpa using hch
        · simp only [String.data] at hch
          simp at hch
      · left
        exact natDigits_isDigit _ ch hch

/-- Witness for claim C8 at a concrete message record. -/
theorem claim_C8_witness :
    (InfoMessage.mk "Running" 1 2 3 (some 4)).calories = some 4
    ∧ ((InfoMessage.mk "Running" 1 2 3 (some 4)).get_message
        = .ok ("Тип тренировки: " ++ "Running"
          ++ "; Длительность: " ++ formatFixed3 1
          ++ " ч.; Дистанция: " ++ formatFixed3 2
          ++ " км; Ср. скорость: " ++ formatFixed3 3
          ++ " км/ч; Потрачено ккал: " ++ formatFixed3 4 ++ ".")
      ∧ ∀ q : ℚ, ∃ ip fp : String, formatFixed3 q = ip ++ "." ++ fp
          ∧ fp.length = 3 ∧ (∀ ch ∈ fp.data, ch.isDigit = true)
          ∧ (∀ ch ∈ ip.data, ch.isDigit = true ∨ ch = '-')) :=
  ⟨rfl, claim_C8_message_format (InfoMessage.mk "Running" 1 2 3 (some 4)) 4 rfl⟩

/-- Claim C9: with duration zero, every variant's mean-speed computation
raises `ZeroDivisionError` and the error propagates uncaught out of
`get_mean_speed`, `get_spent_calories` and `show_training_info`; with a
nonzero duration (and nonzero height for walking) every metric computation
succeeds. -/
theorem claim_C9_zero_duration (a w h l n : ℚ) :
    ((Training.running a 0 w).get_mean_speed = .error .zeroDivisionError
      ∧ (Training.running a 0 w).get_spent_calories = .error .zeroDivisionError
      ∧ (Training.running a 0 w).show_training_info = .error .zeroDivisionError
      ∧ (Training.sportsWalking a 0 w h).get_mean_speed = .error .zeroDivisionError
      ∧ (Training.sportsWalking a 0 w h).get_spent_calories = .error .zeroDivisionError
      ∧ (Training.sportsWalking a 0 w h).show_training_info = .error .zeroDivisionError
      ∧ (Training.swimming a 0 w l n).get_mean_speed = .error .zeroDivisionError
      ∧ (Training.swimming a 0 w l n).get_spent_calories = .error .zeroDivisionError
      ∧ (Training.swimming a 0 w l n).show_training_info = .error .zeroDivisionError
      ∧ (Training.training a 0 w).get_mean_speed = .error .zeroDivisionError
      ∧ (Training.training a 0 w).show_training_info = .error .zeroDivisionError)
    ∧ ∀ d : ℚ, d ≠ 0 →
        ((∃ s, (Training.running a d w).get_mean_speed = .ok s)
        ∧ (∃ c, (Training.running a d w).get_spent_calories = .ok (some c))
        ∧ (∃ m, (Training.running a d w).show_training_info = .ok m)
        ∧ (∃ s, (Training.swimming a d w l n).get_mean_speed = .ok s)
        ∧ (∃ c, (Training.swimming a d w l n).get_spent_calories = .ok (some c))
        ∧ (∃ m, (Training.swimming a d w l n).show_training_info = .ok m)
        ∧ (∃ s, (Training.sportsWalking a d w h).get_mean_speed = .ok s)
        ∧ (h ≠ 0 →
            (∃ c, (Training.sportsWalking a d w h).get_spent_calories = .ok (some c))
            ∧ (∃ m, (Training.sportsWalking a d w h).show_training_info = .ok m))) := by
  constructor
  · refine ⟨?_, ?_, ?_, ?_, ?_, ?_, ?_, ?_, ?_, ?_, ?_⟩ <;>
      simp [Training.show_training_info, Training.get_spent_calories,
        Training.get_mean_speed]
  · intro d hd
    refine ⟨?_, ?_, ?_, ?_, ?_, ?_, ?_, ?_⟩
    case _ =>
      simp only [Training.get_mean_speed, if_neg hd]
      exact ⟨_, rfl⟩
    case _ =>
      simp only [Training.get_spent_calories, Training.get_mean_speed, if_neg hd]
      exact ⟨_, rfl⟩
    case _ =>
      simp only [Training.show_training_info, Training.get_spent_calories,
        Training.get_mean_speed, if_neg hd]
      exact ⟨_, rfl⟩
    case _ =>
      simp only [Training.get_mean_speed, if_neg hd]
      exact ⟨_, rfl⟩
    case _ =>
      simp only [Training.get_spent_calories, Training.get_mean_speed, if_neg hd]
      exact ⟨_, rfl⟩
    case _ =>
      simp only [Training.show_training_info, Training.get_spent_calories,
        Training.get_mean_speed, if_neg hd]
      exact ⟨_, rfl⟩
    case _ =>
      simp only [Training.get_mean_speed, if_neg hd]
      exact ⟨_, rfl⟩
    case _ =>
      intro hh
      constructor
      case _ =>
        simp only [Training.get_spent_calories, Training.get_mean_speed,
          if_neg hd, if_neg hh]
        exact ⟨_, rfl⟩
      case _ =>
        simp only [Training.show_training_info, Training.get_spent_calories,
          Training.get_mean_speed, if_neg hd, if_neg hh]
        exact ⟨_, rfl⟩

/-- Witness for claim C9: running with duration zero raises, and with
duration one hour the metrics of running and walking succeed. -/
theorem claim_C9_witness :
    (Training.running 15000 0 75).get_mean_speed = .error .zeroDivisionError
    ∧ (1 : ℚ) ≠ 0
    ∧ (180 : ℚ) ≠ 0
    ∧ (∃ c, (Training.running 15000 1 75).get_spent_calories = .ok (some c))
    ∧ (∃ c, (Training.sportsWalking 15000 1 75 180).get_spent_calories = .ok (some c)) :=
  ⟨(claim_C9_zero_duration 15000 75 180 25 40).1.1, by simp, by simp,
   ((claim_C9_zero_duration 15000 75 180 25 40).2 1 (by simp)).2.1,
   (((claim_C9_zero_duration 15000 75 180 25 40).2 1 (by simp)).2.2.2.2.2.2.2
     (by simp)).1⟩

/-- Claim C10: a base-class `Training` instance returns `None` from
`get_spent_calories`, so `show_training_info` yields an `InfoMessage` whose
calories field is `None` and `get_message` on it raises a formatting
`TypeError` instead of producing a summary line. -/
theorem claim_C10_base_training (a d w : ℚ) (hd : d ≠ 0) :
    (Training.training a d w).get_spent_calories = .ok none
    ∧ ∃ m : InfoMessage, (Training.training a d w).show_training_info = .ok m
        ∧ m.calories = none ∧ m.get_message = .error .typeError := by
  refine ⟨rfl, ⟨⟨"Training", d, (Training.training a d w).get_distance,
      (Training.training a d w).get_distance / d, none⟩, ?_, rfl, rfl⟩⟩
  simp only [Training.show_training_info, Training.get_spent_calories,
    Training.get_mean_speed, if_neg hd, Training.type_name, Training.duration]

/-- Witness for claim C10 at action 1000, duration 1 h, weight 75 kg. -/
theorem claim_C10_witness :
    (1 : ℚ) ≠ 0
    ∧ ((Training.training 1000 1 75).get_spent_calories = .ok none
      ∧ ∃ m : InfoMessage, (Training.training 1000 1 75).show_training_info = .ok m
          ∧ m.calories = none ∧ m.get_message = .error .typeError) :=
  ⟨by simp, claim_C10_base_training 1000 1 75 (by simp)⟩

end Homework
